import Mathlib

/-!
Shallow embedding of the idle-triggered autosave controller and question/option
editing logic of the page-editing form (`PageForm`).  Pure helpers are translated
directly; React `useState`/`useRef` state is modelled as explicit record state,
`window.setTimeout` as an explicit timer slot holding an absolute deadline, and
the commit sink (`onSave`) as an emitted list of committed payloads.  Successive
non-functional `setQuestions(...)` calls inside one event handler are modelled by
their React semantics: each call replaces the pending value, the last one wins.
-/

namespace PageForm

/-- `INACTIVITY_MS = 5000`: user considered "done" after 5s idle. -/
def INACTIVITY_MS : Nat := 5000

/-- The literal `+ 50` guard band added when rescheduling the remaining idle time. -/
def GUARD_MS : Nat := 50

/-- The `setTimeout(() => setIsInitialLoad(false), 1000)` suppression window. -/
def INITIAL_LOAD_MS : Nat := 1000

/-- One structured sub-record.  `correctAnswer`/`options` are optional in the
TypeScript interface; `none` models JavaScript `undefined`. -/
structure Question where
  questionText : String
  answerType : String
  correctAnswer : Option String
  options : Option String
deriving DecidableEq, Repr, Inhabited

/-- JavaScript `String.prototype.trim`, modelled by structural recursion over the
character list (whitespace as in `Char.isWhitespace`). -/
def jsTrim (s : String) : String :=
  { data := ((s.data.dropWhile Char.isWhitespace).reverse.dropWhile Char.isWhitespace).reverse }

/-- Splitting a character list on a separator character; JavaScript semantics:
`''.split(sep)` is `['']`, separators at the ends produce empty entries. -/
def splitChars (sep : Char) : List Char → List (List Char)
  | [] => [[]]
  | c :: cs =>
    let r := splitChars sep cs
    if c = sep then [] :: r
    else
      match r with
      | [] => [[c]]
      | h :: t => (c :: h) :: t

/-- JavaScript `String.prototype.split` with a one-character separator. -/
def jsSplit (s : String) (sep : Char) : List String :=
  (splitChars sep s.data).map (fun l => { data := l })

/-- JavaScript `String.prototype.includes` with a one-character needle. -/
def jsIncludes (s : String) (c : Char) : Bool :=
  s.data.any (fun x => x = c)

/-- JavaScript `Array.prototype.join`. -/
def jsJoin (sep : String) : List String → String
  | [] => ""
  | [x] => x
  | x :: xs => x ++ sep ++ jsJoin sep xs

/-- Translation of `getOptionsList`: `if (!optionsString) return []`, then split on
newline when one is present (keeping entries untrimmed, dropping whitespace-only
ones), else split on comma, trimming entries and dropping empty ones. -/
def getOptionsList : Option String → List String
  | none => []
  | some s =>
    if s = "" then []
    else if jsIncludes s '\n' then
      (jsSplit s '\n').filter (fun opt => jsTrim opt ≠ "")
    else
      ((jsSplit s ',').map jsTrim).filter (fun opt => opt ≠ "")

/-- The four `keyof Question` values usable as the `field` argument of `updateQuestion`. -/
inductive QField
  | questionText
  | answerType
  | correctAnswer
  | options
deriving DecidableEq, Repr

/-- One field update, `updated[index] = { ...updated[index], [field]: value }`. -/
def setQField (q : Question) : QField → String → Question
  | QField.questionText, v => { q with questionText := v }
  | QField.answerType, v => { q with answerType := v }
  | QField.correctAnswer, v => { q with correctAnswer := some v }
  | QField.options, v => { q with options := some v }

/-- Translation of `updateQuestion` acting on a given questions array: copies the
array, rewrites one field of one element, and when the answer type is switched to
`multiple_choice` with no options yet, synthesizes the default 3-option list.
An out-of-range index leaves the list unchanged (handlers only pass valid ones). -/
def updateQuestion (questions : List Question) (index : Nat) (f : QField) (v : String) :
    List Question :=
  let q0 := questions.getD index default
  let q1 := setQField q0 f v
  let q2 :=
    if f = QField.answerType ∧ v = "multiple_choice" ∧ (getOptionsList q1.options).length = 0
    then { q1 with options := some "Option 1\nOption 2\nOption 3" }
    else q1
  questions.set index q2

/-- React semantics of several plain (non-functional) `setQuestions(x)` calls inside
one event handler: each call replaces the pending next state, so the committed
state is the last value set (or the previous state when none was set). -/
def applySetStates (prev : List Question) (updates : List (List Question)) : List Question :=
  updates.foldl (fun _ u => u) prev

/-- Translation of `addOption`: parse `q.options || ''`, append `Option ${n+1}`,
and store the list re-joined with newline. -/
def addOption (questions : List Question) (qi : Nat) : List Question :=
  let q := questions.getD qi default
  let opts := getOptionsList (some (q.options.getD ""))
  let optionsString := jsJoin "\n" (opts ++ ["Option " ++ toString (opts.length + 1)])
  updateQuestion questions qi QField.options optionsString

/-- Translation of `removeOption`.  Both `updateQuestion` calls are built from the
same render-closure `questions` array and use plain `setQuestions`, so the second
(options) update is computed from the original array and overwrites the first
(correct-answer-clearing) update. -/
def removeOption (questions : List Question) (qi oi : Nat) : List Question :=
  let q := questions.getD qi default
  let opts := getOptionsList q.options
  let clearUpdates :=
    if q.correctAnswer = opts[oi]? then [updateQuestion questions qi QField.correctAnswer ""]
    else []
  let next := jsJoin "\n" (opts.take oi ++ opts.drop (oi + 1))
  applySetStates questions (clearUpdates ++ [updateQuestion questions qi QField.options next])

/-- The removal behavior the spec (and the code's own correct-answer guard on the
line `if (q.correctAnswer === opts[oi]) updateQuestion(qi, 'correctAnswer', '')`)
evidently intends: the two updates applied in sequence, each to the result of the
previous one, so the cleared correct answer survives. -/
def removeOptionIntent (questions : List Question) (qi oi : Nat) : List Question :=
  let q := questions.getD qi default
  let opts := getOptionsList q.options
  let afterClear :=
    if q.correctAnswer = opts[oi]? then updateQuestion questions qi QField.correctAnswer ""
    else questions
  let next := jsJoin "\n" (opts.take oi ++ opts.drop (oi + 1))
  updateQuestion afterClear qi QField.options next

/-- Translation of `updateOptionText`: same stale-closure structure as `removeOption`;
the second update (the rewritten option list) overwrites the first (the renamed
correct answer). -/
def updateOptionText (questions : List Question) (qi oi : Nat) (text : String) : List Question :=
  let q := questions.getD qi default
  let opts := getOptionsList q.options
  let renameUpdates :=
    if q.correctAnswer = opts[oi]? then [updateQuestion questions qi QField.correctAnswer text]
    else []
  let opts2 := opts.set oi text
  applySetStates questions
    (renameUpdates ++ [updateQuestion questions qi QField.options (jsJoin "\n" opts2)])

/-- The scalar form fields managed by react-hook-form (`form.getValues()`). -/
structure FormValues where
  pageNumber : Nat
  title : String
  content : String
  imageUrl : String
  imagePublicId : String
deriving DecidableEq, Repr, Inhabited

/-- The full current truth the snapshot builder reads: the form values plus the
`questions` state array. -/
structure FormTruth where
  values : FormValues
  questions : List Question
deriving DecidableEq, Repr, Inhabited

/-- The component props the payload builder closes over: `initialValues?.id` and
the `pageNumber` prop. -/
structure Ctx where
  idVal : Option Nat
  pageNumber : Nat
deriving DecidableEq, Repr

/-- The snapshot handed to the `onSave` sink (`PageFormValues`). -/
structure PageFormValues where
  id : Option Nat
  pageNumber : Nat
  title : String
  content : String
  imageUrl : String
  imagePublicId : String
  questions : Option (List Question)
  showNotification : Bool
deriving DecidableEq, Repr

/-- Translation of `buildPayload`: `if (!v.content || !v.content.trim()) return null`,
else assemble the payload; `questions.length > 0 ? questions : undefined`. -/
def buildPayload (ctx : Ctx) (showNotification : Bool) (truth : FormTruth) :
    Option PageFormValues :=
  if truth.values.content = "" ∨ jsTrim truth.values.content = "" then none
  else
    some
      { id := ctx.idVal
        pageNumber := ctx.pageNumber
        title := truth.values.title
        content := truth.values.content
        imageUrl := truth.values.imageUrl
        imagePublicId := truth.values.imagePublicId
        questions := if truth.questions.length > 0 then some truth.questions else none
        showNotification := showNotification }

/-- A pending timeout is either the `INACTIVITY_MS` timeout whose callback re-checks
the idle time (`check`), or the rescheduled remaining-time timeout whose callback
is plain `() => flushSave()` (`direct`). -/
inductive TimerKind
  | check
  | direct
deriving DecidableEq, Repr

/-- A pending `setTimeout`, by its absolute deadline. -/
structure Timer where
  deadline : Nat
  kind : TimerKind
deriving DecidableEq, Repr

/-- The scheduler-relevant component state: `isInitialLoad`, `hasUnsavedChanges`,
`latestPayloadRef`, `lastEditRef`, and the single `saveTimerRef` slot. -/
structure SchedState where
  isInitialLoad : Bool
  hasUnsavedChanges : Bool
  latestPayload : Option PageFormValues
  lastEdit : Nat
  timer : Option Timer
deriving DecidableEq, Repr

/-- Translation of `flushSave`: early return while `isInitialLoad`; otherwise clear
any pending timeout, take `latestPayloadRef.current || buildPayload(true)`, and if
a payload exists call `onSave(payload)` (the emitted list) and clear the
unsaved-changes flag.  The cached payload itself is not cleared. -/
def flushSave (ctx : Ctx) (truth : FormTruth) (st : SchedState) :
    SchedState × List PageFormValues :=
  if st.isInitialLoad then (st, [])
  else
    let st1 := { st with timer := none }
    match st1.latestPayload with
    | some p => ({ st1 with hasUnsavedChanges := false }, [p])
    | none =>
      match buildPayload ctx true truth with
      | some p => ({ st1 with hasUnsavedChanges := false }, [p])
      | none => (st1, [])

/-- Translation of `queueSave`: no-op while `isInitialLoad` or when the builder
returns null; otherwise cache the payload, record the edit time, set the
unsaved-changes flag, clear any pending timeout and arm a fresh `INACTIVITY_MS`
timeout whose callback re-checks the idle time. -/
def queueSave (now : Nat) (showNotification : Bool) (ctx : Ctx) (truth : FormTruth)
    (st : SchedState) : SchedState :=
  if st.isInitialLoad then st
  else
    match buildPayload ctx showNotification truth with
    | none => st
    | some p =>
      { st with
          latestPayload := some p
          lastEdit := now
          hasUnsavedChanges := true
          timer := some { deadline := now + INACTIVITY_MS, kind := TimerKind.check } }

/-- Firing the pending timeout at its deadline `d`.  The fired timeout is spent, so
the slot is emptied first (the stale id left in `saveTimerRef` is inert).  A
`check` timeout computes `idleFor = Date.now() - lastEditRef.current`; if at least
`INACTIVITY_MS` it flushes, else it arms a plain flush timeout for
`INACTIVITY_MS - idleFor + 50`.  A `direct` timeout just flushes. -/
def fireTimer (d : Nat) (k : TimerKind) (ctx : Ctx) (truth : FormTruth) (st : SchedState) :
    SchedState × List PageFormValues :=
  let st0 := { st with timer := none }
  match k with
  | TimerKind.direct => flushSave ctx truth st0
  | TimerKind.check =>
    let idleFor := d - st0.lastEdit
    if INACTIVITY_MS ≤ idleFor then flushSave ctx truth st0
    else
      ({ st0 with
          timer := some { deadline := d + (INACTIVITY_MS - idleFor + GUARD_MS),
                          kind := TimerKind.direct } }, [])

/-- Let wall-clock time advance to `t`, firing the pending timeout when its deadline
has been reached (a `check` fire can arm one further `direct` timeout, which also
fires when due; a fired `direct` timeout leaves the slot empty). -/
def advanceTo (t : Nat) (ctx : Ctx) (truth : FormTruth) (st : SchedState) :
    SchedState × List PageFormValues :=
  match st.timer with
  | none => (st, [])
  | some tm =>
    if tm.deadline ≤ t then
      let r1 := fireTimer tm.deadline tm.kind ctx truth st
      match r1.1.timer with
      | none => r1
      | some tm2 =>
        if tm2.deadline ≤ t then
          let r2 := fireTimer tm2.deadline tm2.kind ctx truth r1.1
          (r2.1, r1.2 ++ r2.2)
        else r1
    else (st, [])

/-- The component state touched by the question/image handlers, beyond the
scheduler slice: the `questions` array, the derived `hasQuestions` flag, the
change timestamps and the image preview state. -/
structure ComponentState where
  sched : SchedState
  form : FormValues
  questions : List Question
  hasQuestions : Bool
  lastQuestionsChange : Nat
  lastImageChange : Nat
  imagePreview : Option String
  previewSrc : Option String
deriving DecidableEq, Repr

/-- The truth the builder reads from a component state. -/
def truthOf (cs : ComponentState) : FormTruth :=
  { values := cs.form, questions := cs.questions }

/-- Translation of `addQuestion`: append a blank text question, set `hasQuestions`,
set the unsaved-changes flag (unconditionally), record the change time. -/
def addQuestion (now : Nat) (cs : ComponentState) : ComponentState :=
  { cs with
      questions := cs.questions ++
        [{ questionText := "", answerType := "text", correctAnswer := some "",
           options := some "" }]
      hasQuestions := true
      sched := { cs.sched with hasUnsavedChanges := true }
      lastQuestionsChange := now }

/-- The effect re-queuing on `questions` changes: `if (isInitialLoad) return;
if (questions) queueSave(true)` — the array is always truthy. -/
def questionsChangedEffect (now : Nat) (ctx : Ctx) (cs : ComponentState) : ComponentState :=
  if cs.sched.isInitialLoad then cs
  else { cs with sched := queueSave now true ctx (truthOf cs) cs.sched }

/-- An `addQuestion` click followed by the `questions`-change effect it triggers. -/
def addQuestionStep (now : Nat) (ctx : Ctx) (cs : ComponentState) : ComponentState :=
  questionsChangedEffect now ctx (addQuestion now cs)

/-- Translation of `clearImage`: clear the previews, blank the `imageUrl` and
`imagePublicId` fields, set the unsaved-changes flag (unconditionally), record
the image-change time, then call `queueSave(true)`.  (The file-input reset is
pure UI and is not modelled.) -/
def clearImage (now : Nat) (ctx : Ctx) (cs : ComponentState) : ComponentState :=
  let cs1 :=
    { cs with
        imagePreview := none
        previewSrc := none
        form := { cs.form with imageUrl := "", imagePublicId := "" } }
  let cs2 :=
    { cs1 with
        sched := { cs1.sched with hasUnsavedChanges := true }
        lastImageChange := now }
  { cs2 with sched := queueSave now true ctx (truthOf cs2) cs2.sched }

/-- A notification event: at time `t` the form truth became `truth` and
`queueSave showNotification` ran.  Any timeout whose deadline falls before `t`
fires first, against the previous truth. -/
def runNotifies (ctx : Ctx) :
    List (Nat × Bool × FormTruth) → FormTruth → SchedState →
      SchedState × FormTruth × List PageFormValues
  | [], truth, st => (st, truth, [])
  | (t, sn, tr) :: rest, truth, st =>
    let a := advanceTo t ctx truth st
    let st2 := queueSave t sn ctx tr a.1
    let r := runNotifies ctx rest tr st2
    (r.1, r.2.1, a.2 ++ r.2.2)

/-- Run a sequence of notification events and then let time advance to `endT`,
collecting every payload handed to the `onSave` sink along the way. -/
def runBurst (ctx : Ctx) (events : List (Nat × Bool × FormTruth)) (truth0 : FormTruth)
    (st0 : SchedState) (endT : Nat) : SchedState × List PageFormValues :=
  let r := runNotifies ctx events truth0 st0
  let f := advanceTo endT ctx r.2.1 r.1
  (f.1, r.2.2 ++ f.2)

/-- Burst shape: each event comes strictly after, and less than `INACTIVITY_MS`
after, the previous one. -/
def burstOK : Nat → List (Nat × Bool × FormTruth) → Bool
  | _, [] => true
  | tprev, (t, _, _) :: rest => decide (tprev < t) && decide (t - tprev < INACTIVITY_MS) && burstOK t rest

/-- Every event in the list carries save-worthy content (the builder succeeds). -/
def allWorthy (ctx : Ctx) (l : List (Nat × Bool × FormTruth)) : Bool :=
  l.all (fun e => (buildPayload ctx e.2.1 e.2.2).isSome)

/-- The last event of a nonempty burst, written as head plus tail. -/
def lastEvent (e0 : Nat × Bool × FormTruth) :
    List (Nat × Bool × FormTruth) → Nat × Bool × FormTruth
  | [] => e0
  | e :: rest => lastEvent e rest

/-- The scheduler state immediately after a qualifying `queueSave` at time `t`
cached payload `p`: flag set, timeout armed for `t + INACTIVITY_MS`. -/
def armedState (t : Nat) (p : PageFormValues) : SchedState :=
  { isInitialLoad := false
    hasUnsavedChanges := true
    latestPayload := some p
    lastEdit := t
    timer := some { deadline := t + INACTIVITY_MS, kind := TimerKind.check } }

/-! Concrete fixtures used by counterexamples and witnesses. -/

/-- A concrete props context. -/
def exCtx : Ctx := { idVal := some 7, pageNumber := 1 }

/-- Concrete form values with save-worthy content. -/
def exValues : FormValues :=
  { pageNumber := 1, title := "A", content := "hello", imageUrl := "", imagePublicId := "" }

/-- Truth at the first edit of the example burst (title "A"). -/
def exTruth1 : FormTruth := { values := exValues, questions := [] }

/-- Truth at the second edit of the example burst (title "AB"). -/
def exTruth2 : FormTruth := { values := { exValues with title := "AB" }, questions := [] }

/-- An idle post-load scheduler state. -/
def exIdleState : SchedState :=
  { isInitialLoad := false, hasUnsavedChanges := false, latestPayload := none,
    lastEdit := 0, timer := none }

/-- The payload cached by the example armed state. -/
def exPayload : PageFormValues :=
  { id := some 7, pageNumber := 1, title := "A", content := "hello", imageUrl := "",
    imagePublicId := "", questions := none, showNotification := false }

/-- A scheduler state armed at t = 2000 (deadline 7000) with a cached payload. -/
def exArmed : SchedState :=
  { isInitialLoad := false, hasUnsavedChanges := true, latestPayload := some exPayload,
    lastEdit := 2000, timer := some { deadline := 7000, kind := TimerKind.check } }

/-- A scheduler state still inside the initial-load suppression window. -/
def exLoadingSched : SchedState :=
  { isInitialLoad := true, hasUnsavedChanges := false, latestPayload := none,
    lastEdit := 0, timer := none }

/-- A component state inside the suppression window. -/
def exLoadingComponent : ComponentState :=
  { sched := exLoadingSched, form := exValues, questions := [], hasQuestions := false,
    lastQuestionsChange := 0, lastImageChange := 0, imagePreview := none, previewSrc := none }

/-- A post-load component state whose content is empty (builder returns null). -/
def exEmptyComponent : ComponentState :=
  { sched := exIdleState, form := { exValues with content := "" }, questions := [],
    hasQuestions := false, lastQuestionsChange := 0, lastImageChange := 0,
    imagePreview := some "x", previewSrc := some "x" }

/-- The multiple-choice question of E2E scenario C. -/
def exMCQuestion : Question :=
  { questionText := "Q1?", answerType := "multiple_choice", correctAnswer := some "Option 1",
    options := some "Option 1\nOption 2" }

/-- The options parser as the spec sentence describes it — split on newline when one
is present, else on comma, and in BOTH cases trim each entry and drop empty
entries.  Stated for comparison against `getOptionsList`, which is translated
from the source. -/
def getOptionsListSpec : Option String → List String
  | none => []
  | some s =>
    if s = "" then []
    else
      (((if jsIncludes s '\n' then jsSplit s '\n'
         else jsSplit s ',')).map jsTrim).filter (fun opt => opt ≠ "")

/-! ## Shared helper lemmas -/

theorem getD_set_self {α : Type} (l : List α) (i : Nat) (a d : α) (h : i < l.length) :
    (l.set i a).getD i d = a := by
  induction l generalizing i with
  | nil => simp at h
  | cons x xs ih =>
    cases i with
    | zero => rfl
    | succ n => exact ih n (by simpa using h)

theorem applySetStates_last (prev : List Question) (us : List (List Question))
    (u : List Question) : applySetStates prev (us ++ [u]) = u := by
  induction us generalizing prev with
  | nil => rfl
  | cons a t ih => exact ih a

theorem updateQuestion_options_getD (l : List Question) (qi : Nat) (v : String)
    (h : qi < l.length) :
    ((updateQuestion l qi QField.options v).getD qi default).options = some v := by
  simp only [updateQuestion]
  rw [if_neg (by simp)]
  rw [getD_set_self _ _ _ _ h]
  rfl

theorem queueSave_noop_of_load (now : Nat) (sn : Bool) (ctx : Ctx) (truth : FormTruth)
    (st : SchedState) (h : st.isInitialLoad = true) :
    queueSave now sn ctx truth st = st := by
  simp [queueSave, h]

theorem queueSave_noop_of_none (now : Nat) (sn : Bool) (ctx : Ctx) (truth : FormTruth)
    (st : SchedState) (h : buildPayload ctx sn truth = none) :
    queueSave now sn ctx truth st = st := by
  unfold queueSave
  rw [h]
  split <;> rfl

theorem queueSave_eq_of_worthy (now : Nat) (sn : Bool) (ctx : Ctx) (truth : FormTruth)
    (st : SchedState) (p : PageFormValues) (hload : st.isInitialLoad = false)
    (hp : buildPayload ctx sn truth = some p) :
    queueSave now sn ctx truth st =
      { st with latestPayload := some p, lastEdit := now, hasUnsavedChanges := true,
                timer := some { deadline := now + INACTIVITY_MS, kind := TimerKind.check } } := by
  simp [queueSave, hload, hp]

theorem queueSave_armed (now : Nat) (sn : Bool) (ctx : Ctx) (truth : FormTruth)
    (st : SchedState) (p : PageFormValues) (hload : st.isInitialLoad = false)
    (hp : buildPayload ctx sn truth = some p) :
    queueSave now sn ctx truth st = armedState now p := by
  cases st with
  | mk a b c d e =>
    subst hload
    simp [queueSave, hp, armedState]

theorem flushSave_eq_of_cache (ctx : Ctx) (truth : FormTruth) (st : SchedState)
    (p : PageFormValues) (hload : st.isInitialLoad = false) (hcache : st.latestPayload = some p) :
    flushSave ctx truth st = ({ st with timer := none, hasUnsavedChanges := false }, [p]) := by
  simp [flushSave, hload, hcache]

theorem advanceTo_none (t : Nat) (ctx : Ctx) (truth : FormTruth) (st : SchedState)
    (h : st.timer = none) : advanceTo t ctx truth st = (st, []) := by
  simp [advanceTo, h]

theorem advanceTo_armed_before (t tp : Nat) (p : PageFormValues) (ctx : Ctx)
    (truth : FormTruth) (h : t < tp + INACTIVITY_MS) :
    advanceTo t ctx truth (armedState tp p) = (armedState tp p, []) := by
  unfold advanceTo armedState
  simp only []
  rw [if_neg (by omega)]

theorem advanceTo_armed_fire (t tp : Nat) (p : PageFormValues) (ctx : Ctx)
    (truth : FormTruth) (h : tp + INACTIVITY_MS ≤ t) :
    advanceTo t ctx truth (armedState tp p)
      = ({ isInitialLoad := false, hasUnsavedChanges := false, latestPayload := some p,
           lastEdit := tp, timer := none }, [p]) := by
  unfold advanceTo armedState
  simp only []
  rw [if_pos (by omega)]
  have hidle : INACTIVITY_MS ≤ tp + INACTIVITY_MS - tp := by omega
  simp [fireTimer, flushSave, hidle]

theorem runNotifies_armed (ctx : Ctx) :
    ∀ (rest : List (Nat × Bool × FormTruth)) (eprev : Nat × Bool × FormTruth)
      (pprev : PageFormValues),
      buildPayload ctx eprev.2.1 eprev.2.2 = some pprev →
      burstOK eprev.1 rest = true → allWorthy ctx rest = true →
      ∃ plast,
        buildPayload ctx (lastEvent eprev rest).2.1 (lastEvent eprev rest).2.2 = some plast ∧
        runNotifies ctx rest eprev.2.2 (armedState eprev.1 pprev)
          = (armedState (lastEvent eprev rest).1 plast, (lastEvent eprev rest).2.2, []) := by
  intro rest
  induction rest with
  | nil =>
    intro eprev pprev hp _ _
    exact ⟨pprev, hp, rfl⟩
  | cons e t ih =>
    intro eprev pprev hp hok hw
    obtain ⟨t1, sn1, tr1⟩ := e
    simp only [burstOK, Bool.and_eq_true, decide_eq_true_eq] at hok
    obtain ⟨⟨hlt, hgap⟩, hok'⟩ := hok
    simp only [allWorthy, List.all_cons, Bool.and_eq_true] at hw
    obtain ⟨hw1, hw'⟩ := hw
    obtain ⟨p1, hp1⟩ := Option.isSome_iff_exists.mp hw1
    obtain ⟨plast, hpl, hrun⟩ := ih (t1, sn1, tr1) p1 hp1 hok' hw'
    refine ⟨plast, hpl, ?_⟩
    simp only [runNotifies]
    rw [advanceTo_armed_before _ _ _ _ _ (by omega)]
    rw [queueSave_armed _ _ _ _ _ _ rfl hp1]
    rw [hrun]
    rfl

/-! ## Claim theorems -/

/-- C1: for every burst of qualifying `notify()` calls after the initial-load
window, each strictly later than and less than `idleWindow` after the previous
one, the commit sink is invoked exactly once for the whole burst (and not before
the last call's idle window has elapsed), and the committed snapshot is the one
built from the form state at the time of the last call of the burst. -/
theorem notify_burst_commits_once (ctx : Ctx) (e0 : Nat × Bool × FormTruth)
    (rest : List (Nat × Bool × FormTruth)) (truth0 : FormTruth) (st0 : SchedState)
    (endT : Nat)
    (hload : st0.isInitialLoad = false) (htimer : st0.timer = none)
    (hok : burstOK e0.1 rest = true)
    (hw0 : (buildPayload ctx e0.2.1 e0.2.2).isSome = true)
    (hw : allWorthy ctx rest = true)
    (hend : (lastEvent e0 rest).1 + INACTIVITY_MS ≤ endT) :
    ∃ plast,
      buildPayload ctx (lastEvent e0 rest).2.1 (lastEvent e0 rest).2.2 = some plast ∧
      (runBurst ctx (e0 :: rest) truth0 st0 endT).2 = [plast] ∧
      ∀ endT2, endT2 < (lastEvent e0 rest).1 + INACTIVITY_MS →
        (runBurst ctx (e0 :: rest) truth0 st0 endT2).2 = [] := by
  obtain ⟨t0, sn0, tr0⟩ := e0
  obtain ⟨p0, hp0⟩ := Option.isSome_iff_exists.mp hw0
  obtain ⟨plast, hpl, hrun⟩ := runNotifies_armed ctx rest (t0, sn0, tr0) p0 hp0 hok hw
  refine ⟨plast, hpl, ?_, ?_⟩
  · unfold runBurst
    simp only [runNotifies]
    rw [advanceTo_none _ _ _ _ htimer]
    rw [queueSave_armed _ _ _ _ _ _ hload hp0]
    rw [hrun]
    simp only []
    rw [advanceTo_armed_fire _ _ _ _ _ hend]
    rfl
  · intro endT2 hend2
    unfold runBurst
    simp only [runNotifies]
    rw [advanceTo_none _ _ _ _ htimer]
    rw [queueSave_armed _ _ _ _ _ _ hload hp0]
    rw [hrun]
    simp only []
    rw [advanceTo_armed_before _ _ _ _ _ hend2]
    rfl

/-- C1 witness: E2E scenario A shifted past the load window — `setField` edits at
t = 2000 ("A") and t = 3000 ("AB"); by t = 8000 the sink was called exactly once,
with the payload built from the t = 3000 state, and no commit happens before
t = 8000. -/
theorem notify_burst_commits_once_witness :
    exIdleState.isInitialLoad = false ∧ exIdleState.timer = none ∧
    burstOK (2000, false, exTruth1).1 [(3000, true, exTruth2)] = true ∧
    (buildPayload exCtx (2000, false, exTruth1).2.1 (2000, false, exTruth1).2.2).isSome = true ∧
    allWorthy exCtx [(3000, true, exTruth2)] = true ∧
    (lastEvent (2000, false, exTruth1) [(3000, true, exTruth2)]).1 + INACTIVITY_MS ≤ 8000 ∧
    ∃ plast,
      buildPayload exCtx (lastEvent (2000, false, exTruth1) [(3000, true, exTruth2)]).2.1
          (lastEvent (2000, false, exTruth1) [(3000, true, exTruth2)]).2.2 = some plast ∧
      (runBurst exCtx [(2000, false, exTruth1), (3000, true, exTruth2)] exTruth1 exIdleState
          8000).2 = [plast] ∧
      ∀ endT2, endT2 < (lastEvent (2000, false, exTruth1) [(3000, true, exTruth2)]).1 +
          INACTIVITY_MS →
        (runBurst exCtx [(2000, false, exTruth1), (3000, true, exTruth2)] exTruth1 exIdleState
            endT2).2 = [] :=
  ⟨rfl, rfl, by decide, by decide, by decide, by decide,
   notify_burst_commits_once exCtx (2000, false, exTruth1) [(3000, true, exTruth2)] exTruth1
     exIdleState 8000 rfl rfl (by decide) (by decide) (by decide) (by decide)⟩

/-- C2 counterexample: with the timer armed at t = 2000 (deadline 7000), a
`notify()` at t = 3000 does not keep the timer on its original schedule — the
code clears the timeout and arms a fresh full-window one (deadline 8000). -/
theorem queueSave_timer_not_kept :
    exArmed.timer = some { deadline := 7000, kind := TimerKind.check } ∧
    (queueSave 3000 false exCtx exTruth2 exArmed).timer
      = some { deadline := 8000, kind := TimerKind.check } ∧
    (queueSave 3000 false exCtx exTruth2 exArmed).timer ≠ exArmed.timer := by
  refine ⟨rfl, by decide, by decide⟩

/-- C2 amended: when a qualifying `notify()` arrives while a save timer is armed,
the scheduler replaces the cached snapshot and updates the last-edit timestamp,
and ALSO resets the timer: the pending timeout is cleared and a fresh one is
armed for a full `idleWindow` from the new notification. -/
theorem queueSave_replaces_and_resets (now : Nat) (sn : Bool) (ctx : Ctx)
    (truth : FormTruth) (st : SchedState) (p : PageFormValues)
    (hload : st.isInitialLoad = false) (hp : buildPayload ctx sn truth = some p) :
    queueSave now sn ctx truth st =
      { st with latestPayload := some p, lastEdit := now, hasUnsavedChanges := true,
                timer := some { deadline := now + INACTIVITY_MS, kind := TimerKind.check } } :=
  queueSave_eq_of_worthy now sn ctx truth st p hload hp

/-- C2 witness: the amended behavior at the concrete armed state. -/
theorem queueSave_replaces_and_resets_witness :
    exArmed.isInitialLoad = false ∧
    buildPayload exCtx false exTruth2 = some { exPayload with title := "AB" } ∧
    queueSave 3000 false exCtx exTruth2 exArmed =
      { exArmed with latestPayload := some { exPayload with title := "AB" }, lastEdit := 3000,
                     hasUnsavedChanges := true,
                     timer := some { deadline := 3000 + INACTIVITY_MS, kind := TimerKind.check } } :=
  ⟨rfl, by decide,
   queueSave_replaces_and_resets 3000 false exCtx exTruth2 exArmed
     { exPayload with title := "AB" } rfl (by decide)⟩

/-- C3: when the idle timeout fires at time `d`, the callback computes the elapsed
idle time `d - lastEdit`; if it is at least `idleWindow` the cached snapshot is
committed (flag and timer cleared), otherwise a new timeout is armed for exactly
`idleWindow - idleElapsed + guardBand` with the cached snapshot, edit timestamp
and unsaved-changes flag untouched — and that rescheduled timeout, which reaches
its deadline only with elapsed idle time at least `idleWindow`, then behaves
exactly as a re-checking fire would (third conjunct). -/
theorem timer_fire_recheck_or_reschedule (d : Nat) (ctx : Ctx) (truth : FormTruth)
    (st : SchedState) (p : PageFormValues)
    (hload : st.isInitialLoad = false) (hcache : st.latestPayload = some p) :
    (INACTIVITY_MS ≤ d - st.lastEdit →
      fireTimer d TimerKind.check ctx truth st
        = ({ st with timer := none, hasUnsavedChanges := false }, [p])) ∧
    (d - st.lastEdit < INACTIVITY_MS →
      fireTimer d TimerKind.check ctx truth st
        = ({ st with
              timer := some { deadline := d + (INACTIVITY_MS - (d - st.lastEdit) + GUARD_MS),
                              kind := TimerKind.direct } }, [])) ∧
    (∀ d2 st2, st2.lastEdit + INACTIVITY_MS ≤ d2 →
      fireTimer d2 TimerKind.direct ctx truth st2 = fireTimer d2 TimerKind.check ctx truth st2) := by
  refine ⟨?_, ?_, ?_⟩
  · intro hidle
    simp [fireTimer, flushSave, hload, hcache, hidle]
  · intro hidle
    simp [fireTimer, Nat.not_le.mpr hidle]
  · intro d2 st2 h2
    have hidle : INACTIVITY_MS ≤ d2 - st2.lastEdit := by omega
    simp [fireTimer, hidle]

/-- C3 witness: the armed example state fired at its deadline 7000 (idle 5000)
commits, and a hypothetical earlier fire at 6000 (idle 4000) reschedules for
6000 + (5000 - 4000 + 50) = 7050. -/
theorem timer_fire_recheck_or_reschedule_witness :
    exArmed.isInitialLoad = false ∧ exArmed.latestPayload = some exPayload ∧
    ((INACTIVITY_MS ≤ 7000 - exArmed.lastEdit →
        fireTimer 7000 TimerKind.check exCtx exTruth1 exArmed
          = ({ exArmed with timer := none, hasUnsavedChanges := false }, [exPayload])) ∧
     (7000 - exArmed.lastEdit < INACTIVITY_MS →
        fireTimer 7000 TimerKind.check exCtx exTruth1 exArmed
          = ({ exArmed with
                timer := some { deadline := 7000 + (INACTIVITY_MS - (7000 - exArmed.lastEdit) +
                                  GUARD_MS), kind := TimerKind.direct } }, [])) ∧
     (∀ d2 st2, st2.lastEdit + INACTIVITY_MS ≤ d2 →
        fireTimer d2 TimerKind.direct exCtx exTruth1 st2
          = fireTimer d2 TimerKind.check exCtx exTruth1 st2)) :=
  ⟨rfl, rfl, timer_fire_recheck_or_reschedule 7000 exCtx exTruth1 exArmed exPayload rfl rfl⟩

/-- C4 counterexample: an `addQuestion` mutation at t = 500, strictly inside the
initial-load suppression window, schedules no save and never reaches the sink,
but it does NOT leave the observable unsaved-changes flag false: the handler sets
the flag unconditionally, so it flips from false to true. -/
theorem suppressed_addQuestion_sets_flag :
    exLoadingComponent.sched.isInitialLoad = true ∧
    exLoadingComponent.sched.hasUnsavedChanges = false ∧
    500 < INITIAL_LOAD_MS ∧
    (addQuestionStep 500 exCtx exLoadingComponent).sched.timer = none ∧
    (addQuestionStep 500 exCtx exLoadingComponent).sched.hasUnsavedChanges = true := by
  refine ⟨rfl, rfl, by decide, by decide, by decide⟩

/-- C4 amended: a `queueSave` notification received while the initial-load window
is active is a complete no-op — no save scheduled, no state change, the sink is
never handed a payload on account of it; however, a mutation such as
`addQuestion` inside the window still arms no timer but does set the
unsaved-changes flag to true (it does not remain false). -/
theorem suppressed_notify_no_schedule (now : Nat) (sn : Bool) (ctx : Ctx)
    (truth : FormTruth) (st : SchedState) (hload : st.isInitialLoad = true) :
    queueSave now sn ctx truth st = st ∧
    (∀ cs : ComponentState, cs.sched.isInitialLoad = true →
      (addQuestionStep now ctx cs).sched.timer = cs.sched.timer ∧
      (addQuestionStep now ctx cs).sched.hasUnsavedChanges = true) := by
  refine ⟨queueSave_noop_of_load now sn ctx truth st hload, ?_⟩
  intro cs h
  simp [addQuestionStep, questionsChangedEffect, addQuestion, h]

/-- C4 witness: the amended behavior at the concrete suppressed state. -/
theorem suppressed_notify_no_schedule_witness :
    exLoadingSched.isInitialLoad = true ∧
    (queueSave 500 false exCtx exTruth1 exLoadingSched = exLoadingSched ∧
     (∀ cs : ComponentState, cs.sched.isInitialLoad = true →
       (addQuestionStep 500 exCtx cs).sched.timer = cs.sched.timer ∧
       (addQuestionStep 500 exCtx cs).sched.hasUnsavedChanges = true)) :=
  ⟨rfl, suppressed_notify_no_schedule 500 false exCtx exTruth1 exLoadingSched rfl⟩

/-- C5: `flushSave` leaves no timer armed in any reachable state (suppressed
states have no timer to cancel), and — unless the initial-load window is still
active, in which case it does nothing at all — it synchronously commits the
cached snapshot when one is present, else a freshly built one when the content
is save-worthy, else does nothing. -/
theorem flushSave_cancels_and_commits (ctx : Ctx) (truth : FormTruth) (st : SchedState)
    (hinv : st.isInitialLoad = true → st.timer = none) :
    (flushSave ctx truth st).1.timer = none ∧
    (st.isInitialLoad = true → flushSave ctx truth st = (st, [])) ∧
    (st.isInitialLoad = false →
      ((∀ p, st.latestPayload = some p →
          flushSave ctx truth st = ({ st with timer := none, hasUnsavedChanges := false }, [p])) ∧
       (st.latestPayload = none →
          (∀ p, buildPayload ctx true truth = some p →
            flushSave ctx truth st = ({ st with timer := none, hasUnsavedChanges := false }, [p])) ∧
          (buildPayload ctx true truth = none →
            flushSave ctx truth st = ({ st with timer := none }, []))))) := by
  by_cases hload : st.isInitialLoad = true
  · refine ⟨?_, ?_, ?_⟩
    · simp [flushSave, hload, hinv hload]
    · intro _; simp [flushSave, hload]
    · intro hfalse; rw [hload] at hfalse; cases hfalse
  · have hload' : st.isInitialLoad = false := by
      cases h : st.isInitialLoad
      · rfl
      · exact absurd h hload
    refine ⟨?_, ?_, ?_⟩
    · cases hcache : st.latestPayload with
      | some p => simp [flushSave, hload', hcache]
      | none =>
        cases hb : buildPayload ctx true truth with
        | some p => simp [flushSave, hload', hcache, hb]
        | none => simp [flushSave, hload', hcache, hb]
    · intro h; rw [hload'] at h; cases h
    · intro _
      refine ⟨?_, ?_⟩
      · intro p hcache
        exact flushSave_eq_of_cache ctx truth st p hload' hcache
      · intro hcache
        refine ⟨?_, ?_⟩
        · intro p hb
          simp [flushSave, hload', hcache, hb]
        · intro hb
          simp [flushSave, hload', hcache, hb]

/-- C5 witness: flushing the concrete armed state commits its cached payload
synchronously and clears the timer. -/
theorem flushSave_cancels_and_commits_witness :
    (exArmed.isInitialLoad = true → exArmed.timer = none) ∧
    ((flushSave exCtx exTruth1 exArmed).1.timer = none ∧
     (exArmed.isInitialLoad = true → flushSave exCtx exTruth1 exArmed = (exArmed, [])) ∧
     (exArmed.isInitialLoad = false →
       ((∀ p, exArmed.latestPayload = some p →
           flushSave exCtx exTruth1 exArmed
             = ({ exArmed with timer := none, hasUnsavedChanges := false }, [p])) ∧
        (exArmed.latestPayload = none →
           (∀ p, buildPayload exCtx true exTruth1 = some p →
             flushSave exCtx exTruth1 exArmed
               = ({ exArmed with timer := none, hasUnsavedChanges := false }, [p])) ∧
           (buildPayload exCtx true exTruth1 = none →
             flushSave exCtx exTruth1 exArmed = ({ exArmed with timer := none }, [])))))) :=
  ⟨by decide, flushSave_cancels_and_commits exCtx exTruth1 exArmed (by decide)⟩

/-- C6 counterexample: `clearImage` on a post-load state whose content is empty
(the builder returns absent) arms no timer, but it does flip the observable
unsaved-changes flag from false to true — the handler sets it unconditionally
before calling `queueSave`. -/
theorem clearImage_unworthy_sets_flag :
    exEmptyComponent.sched.hasUnsavedChanges = false ∧
    buildPayload exCtx true (truthOf (clearImage 2000 exCtx exEmptyComponent)) = none ∧
    (clearImage 2000 exCtx exEmptyComponent).sched.timer = none ∧
    (clearImage 2000 exCtx exEmptyComponent).sched.hasUnsavedChanges = true := by
  refine ⟨rfl, by decide, by decide, by decide⟩

/-- C6 amended: `queueSave` itself, when the builder returns absent, is a complete
no-op — it never arms a timer and never changes the unsaved-changes flag; but the
image-clearing notification site sets the flag to true unconditionally before
calling `queueSave`, even when content is not save-worthy (while still arming no
timer). -/
theorem unworthy_notify_no_schedule (now : Nat) (sn : Bool) (ctx : Ctx)
    (truth : FormTruth) (st : SchedState) (hnone : buildPayload ctx sn truth = none) :
    queueSave now sn ctx truth st = st ∧
    (∀ cs : ComponentState, jsTrim cs.form.content = "" →
      (clearImage now ctx cs).sched.timer = cs.sched.timer ∧
      (clearImage now ctx cs).sched.hasUnsavedChanges = true) := by
  refine ⟨queueSave_noop_of_none now sn ctx truth st hnone, ?_⟩
  intro cs h
  have hb : ∀ sn2 : Bool,
      buildPayload ctx sn2
        (truthOf { cs with imagePreview := none, previewSrc := none,
                           form := { cs.form with imageUrl := "", imagePublicId := "" } }) = none := by
    intro sn2
    simp [buildPayload, truthOf, h]
  simp only [clearImage, truthOf]
  rw [queueSave_noop_of_none]
  · exact ⟨rfl, rfl⟩
  · simpa [truthOf] using hb true

/-- C6 witness: the amended behavior at the concrete empty-content state. -/
theorem unworthy_notify_no_schedule_witness :
    buildPayload exCtx true (truthOf exEmptyComponent) = none ∧
    (queueSave 2000 true exCtx (truthOf exEmptyComponent) exIdleState = exIdleState ∧
     (∀ cs : ComponentState, jsTrim cs.form.content = "" →
       (clearImage 2000 exCtx cs).sched.timer = cs.sched.timer ∧
       (clearImage 2000 exCtx cs).sched.hasUnsavedChanges = true)) :=
  ⟨by decide,
   unworthy_notify_no_schedule 2000 true exCtx (truthOf exEmptyComponent) exIdleState (by decide)⟩

/-- C7 counterexample: committing the concrete armed state hands the cached
payload to the sink, yet the cached snapshot is NOT discarded — `flushSave` never
clears `latestPayloadRef`, so the cache survives the commit. -/
theorem flushSave_retains_cache :
    (flushSave exCtx exTruth1 exArmed).2 = [exPayload] ∧
    (flushSave exCtx exTruth1 exArmed).1.latestPayload = some exPayload ∧
    (flushSave exCtx exTruth1 exArmed).1.latestPayload ≠ none := by
  refine ⟨by decide, by decide, by decide⟩

/-- C7 amended: after every commit (timer fire or flush), the unsaved-changes flag
is reset to false and the timer slot is cleared, but the cached snapshot is
retained, not discarded — it is only ever replaced by a later qualifying edit. -/
theorem commit_clears_flag_retains_cache (ctx : Ctx) (truth : FormTruth) (st : SchedState)
    (p : PageFormValues) (d : Nat)
    (hload : st.isInitialLoad = false) (hcache : st.latestPayload = some p)
    (hidle : st.lastEdit + INACTIVITY_MS ≤ d) :
    flushSave ctx truth st = ({ st with timer := none, hasUnsavedChanges := false }, [p]) ∧
    fireTimer d TimerKind.check ctx truth st
      = ({ st with timer := none, hasUnsavedChanges := false }, [p]) := by
  refine ⟨flushSave_eq_of_cache ctx truth st p hload hcache, ?_⟩
  have h2 : INACTIVITY_MS ≤ d - st.lastEdit := by omega
  simp [fireTimer, flushSave, hload, hcache, h2]

/-- C7 witness: the amended behavior at the concrete armed state (fired at its
deadline 7000). -/
theorem commit_clears_flag_retains_cache_witness :
    exArmed.isInitialLoad = false ∧ exArmed.latestPayload = some exPayload ∧
    exArmed.lastEdit + INACTIVITY_MS ≤ 7000 ∧
    (flushSave exCtx exTruth1 exArmed
        = ({ exArmed with timer := none, hasUnsavedChanges := false }, [exPayload]) ∧
     fireTimer 7000 TimerKind.check exCtx exTruth1 exArmed
        = ({ exArmed with timer := none, hasUnsavedChanges := false }, [exPayload])) :=
  ⟨rfl, rfl, by decide,
   commit_clears_flag_retains_cache exCtx exTruth1 exArmed exPayload 7000 rfl rfl (by decide)⟩

/-- C8 (code bug, E2E scenario C): with options `["Option 1", "Option 2"]` and
`correctAnswer = "Option 1"`, removing the option at index 0 leaves the remaining
options `["Option 2"]` but does NOT clear the correct answer: the clearing
update, computed from the same stale render state as the options update, is
overwritten by the latter.  The sequential-intent version clears it. -/
theorem removeOption_stale_closure_bug :
    removeOption [exMCQuestion] 0 0 =
      [{ questionText := "Q1?", answerType := "multiple_choice",
         correctAnswer := some "Option 1", options := some "Option 2" }] ∧
    removeOptionIntent [exMCQuestion] 0 0 =
      [{ questionText := "Q1?", answerType := "multiple_choice",
         correctAnswer := some "", options := some "Option 2" }] := by
  refine ⟨by decide, by decide⟩

/-- C9 counterexample: on input `" a \nb"` the newline branch keeps entries
untrimmed, so `getOptionsList` returns `[" a ", "b"]` while the claimed
trim-in-both-cases behavior (`getOptionsListSpec`) returns `["a", "b"]`. -/
theorem getOptionsList_newline_untrimmed :
    getOptionsList (some " a \nb") = [" a ", "b"] ∧
    getOptionsListSpec (some " a \nb") = ["a", "b"] ∧
    getOptionsList (some " a \nb") ≠ getOptionsListSpec (some " a \nb") := by
  refine ⟨by decide, by decide, by decide⟩

/-- C9 amended: `getOptionsList` splits on newline when one is present, otherwise
on comma; it drops empty entries in both cases (in the newline case, entries that
are empty after trimming), but trims the kept entries only in the comma case —
newline-split entries are kept verbatim. -/
theorem getOptionsList_delimiter_behavior (s : String) :
    (jsIncludes s '\n' = true →
      getOptionsList (some s) = (jsSplit s '\n').filter (fun opt => jsTrim opt ≠ "")) ∧
    (s ≠ "" → jsIncludes s '\n' = false →
      getOptionsList (some s) = ((jsSplit s ',').map jsTrim).filter (fun opt => opt ≠ "")) ∧
    (getOptionsList none = [] ∧ getOptionsList (some "") = []) ∧
    (∀ opt ∈ getOptionsList (some s), opt ≠ "") := by
  refine ⟨?_, ?_, ⟨rfl, rfl⟩, ?_⟩
  · intro h
    have hne : s ≠ "" := by
      intro hs
      rw [hs] at h
      exact absurd h (by decide)
    simp [getOptionsList, hne, h]
  · intro hne h
    simp [getOptionsList, hne, h]
  · intro opt hmem
    by_cases hs : s = ""
    · rw [hs] at hmem
      simp [getOptionsList] at hmem
    · by_cases hn : jsIncludes s '\n'
      · simp only [getOptionsList, if_neg hs, if_pos hn, List.mem_filter] at hmem
        intro hopt
        rw [hopt] at hmem
        exact absurd hmem.2 (by decide)
      · simp only [getOptionsList, if_neg hs, if_neg hn, List.mem_filter] at hmem
        simpa using hmem.2

/-- C9 amended witness: the comma branch at a concrete input, trimmed. -/
theorem getOptionsList_delimiter_behavior_witness :
    "a, b" ≠ "" ∧ jsIncludes "a, b" '\n' = false ∧
    getOptionsList (some "a, b") = (( jsSplit "a, b" ',').map jsTrim).filter (fun opt => opt ≠ "") := by
  refine ⟨by decide, rfl, (getOptionsList_delimiter_behavior "a, b").2.1 (by decide) rfl⟩

/-- C10: each option-list mutation — `addOption`, `removeOption`,
`updateOptionText` — stores the recomputed option list re-joined with the newline
separator (regardless of the stored string's previous delimiter). -/
theorem option_mutators_serialize_newline (questions : List Question) (qi oi : Nat)
    (text : String) (h : qi < questions.length) :
    (((addOption questions qi).getD qi default).options =
        some (jsJoin "\n"
          (getOptionsList (some ((questions.getD qi default).options.getD "")) ++
            ["Option " ++
              toString ((getOptionsList (some ((questions.getD qi default).options.getD ""))).length
                + 1)]))) ∧
    (((removeOption questions qi oi).getD qi default).options =
        some (jsJoin "\n"
          ((getOptionsList (questions.getD qi default).options).take oi ++
            (getOptionsList (questions.getD qi default).options).drop (oi + 1)))) ∧
    (((updateOptionText questions qi oi text).getD qi default).options =
        some (jsJoin "\n" ((getOptionsList (questions.getD qi default).options).set oi text))) := by
  refine ⟨?_, ?_, ?_⟩
  · simp only [addOption]
    exact updateQuestion_options_getD _ _ _ h
  · simp only [removeOption]
    rw [applySetStates_last]
    exact updateQuestion_options_getD _ _ _ h
  · simp only [updateOptionText]
    rw [applySetStates_last]
    exact updateQuestion_options_getD _ _ _ h

/-- C10 witness: the three mutators on the concrete scenario-C question all store
a newline-joined options string. -/
theorem option_mutators_serialize_newline_witness :
    0 < [exMCQuestion].length ∧
    ((((addOption [exMCQuestion] 0).getD 0 default).options =
        some (jsJoin "\n"
          (getOptionsList (some (([exMCQuestion].getD 0 default).options.getD "")) ++
            ["Option " ++
              toString ((getOptionsList
                (some (([exMCQuestion].getD 0 default).options.getD ""))).length + 1)]))) ∧
     (((removeOption [exMCQuestion] 0 0).getD 0 default).options =
        some (jsJoin "\n"
          ((getOptionsList ([exMCQuestion].getD 0 default).options).take 0 ++
            (getOptionsList ([exMCQuestion].getD 0 default).options).drop (0 + 1)))) ∧
     (((updateOptionText [exMCQuestion] 0 0 "X").getD 0 default).options =
        some (jsJoin "\n" ((getOptionsList ([exMCQuestion].getD 0 default).options).set 0 "X")))) :=
  ⟨by decide, option_mutators_serialize_newline [exMCQuestion] 0 0 "X" (by decide)⟩

end PageForm
